import Mathlib

/-!
Shallow embedding of `src/backend/llm_manager.py` (module `llm_manager`):
the provider abstraction and failover orchestration layer.

Conventions of the embedding:
* Python mutable objects become immutable Lean structures with explicit
  state passing: a method that mutates `self` becomes a function
  `EmergentProvider → EmergentProvider` (or returns a pair when it also
  produces a value).
* `datetime.now()` timestamps are abstract `Nat` clock values supplied by
  the caller (the code never compares them, it only stores them).
* The remote vendor call performed through `emergentintegrations`
  (`LlmChat(...).with_model(...).with_max_tokens(4000)` followed by
  `chat.send_message(UserMessage(text=prompt))`) is an oracle
  `VendorCall → Except String String`: `.ok r` is the awaited response
  (possibly the empty/falsy response), `.error e` is a raised exception
  with message `e`.
* The module flag `EMERGENT_AVAILABLE` is an explicit `Bool` parameter
  `avail`.
* Python exceptions become `Except String`; string formatting
  `f"{self.name} API error: {str(e)}"` becomes string concatenation.
-/

/-- `ProviderStatus` enum of `llm_manager.py` (lines 30-34). -/
inductive ProviderStatus where
  | ACTIVE
  | INACTIVE
  | ERROR
  | RATE_LIMITED
deriving DecidableEq, Repr

/-- The `.value` of each enum member (`"active"`, `"inactive"`, …). -/
def ProviderStatus.value : ProviderStatus → String
  | .ACTIVE => "active"
  | .INACTIVE => "inactive"
  | .ERROR => "error"
  | .RATE_LIMITED => "rate_limited"

/-- The mutable fields of an `EmergentProvider` object
(`__init__`, lines 39-54).  `last_request_time` is an abstract clock
value; `api_key` is `none` when the Python attribute is `None`. -/
structure EmergentProvider where
  name : String
  provider_key : String
  model : String
  api_key : Option String
  status : ProviderStatus
  last_request_time : Option Nat
  request_count : Nat
  error_count : Nat
  last_error : Option String
deriving DecidableEq, Repr

/-- Python's `needle in hay` substring test on lists of characters. -/
def list_contains_sub (needle : List Char) : List Char → Bool
  | [] => needle.isEmpty
  | c :: rest => needle.isPrefixOf (c :: rest) || list_contains_sub needle rest

/-- Python's `needle in hay` substring test on strings. -/
def str_contains_sub (hay needle : String) : Bool :=
  list_contains_sub needle.toList hay.toList

/-- Python's `str.lower()`: character-wise lowering (written out over the
character list so that it evaluates by kernel reduction). -/
def lower_str (s : String) : String :=
  String.mk (s.data.map Char.toLower)

/-- Python's `str.upper()`: character-wise raising. -/
def upper_str (s : String) : String :=
  String.mk (s.data.map Char.toUpper)

/-- Python truthiness of a `str | None` value: `None` and `""` are falsy. -/
def truthy_opt : Option String → Bool
  | some s => !s.isEmpty
  | none => false

/-- `EmergentProvider.__init__` (lines 39-54).  `avail` is
`EMERGENT_AVAILABLE`; `env` is `os.environ.get`.  The constructor falls
back to `os.environ.get(f"{provider_key.upper()}_API_KEY")` when the
passed `api_key` is falsy, and starts `ACTIVE` iff the resulting key is
truthy and the integration library is available, else `INACTIVE`. -/
def EmergentProvider.init (avail : Bool) (env : String → Option String)
    (name provider_key model : String) (api_key : Option String) : EmergentProvider :=
  let key := if truthy_opt api_key then api_key
             else env (upper_str provider_key ++ "_API_KEY")
  { name := name
    provider_key := provider_key
    model := model
    api_key := key
    status := if truthy_opt key && avail then .ACTIVE else .INACTIVE
    last_request_time := none
    request_count := 0
    error_count := 0
    last_error := none }

/-- `EmergentProvider.can_make_request` (lines 56-58):
`self.status == ProviderStatus.ACTIVE and self.api_key is not None`. -/
def EmergentProvider.can_make_request (p : EmergentProvider) : Bool :=
  p.status == ProviderStatus.ACTIVE && p.api_key.isSome

/-- `EmergentProvider.record_request` (lines 60-63). -/
def EmergentProvider.record_request (now : Nat) (p : EmergentProvider) : EmergentProvider :=
  { p with last_request_time := some now, request_count := p.request_count + 1 }

/-- `EmergentProvider.record_success` (lines 65-70): acts only when the
current status is `ERROR`; otherwise it is a no-op. -/
def EmergentProvider.record_success (p : EmergentProvider) : EmergentProvider :=
  if p.status = ProviderStatus.ERROR then
    { p with status := .ACTIVE, error_count := 0, last_error := none }
  else p

/-- `EmergentProvider.record_error` (lines 72-81): increments
`error_count`, stores the message, then sets `ERROR` when the count has
reached 3, else `RATE_LIMITED` when `"rate limit" in error.lower()`. -/
def EmergentProvider.record_error (error : String) (p : EmergentProvider) : EmergentProvider :=
  let p1 : EmergentProvider :=
    { p with error_count := p.error_count + 1, last_error := some error }
  if 3 ≤ p1.error_count then { p1 with status := .ERROR }
  else if str_contains_sub (lower_str error) "rate limit" then { p1 with status := .RATE_LIMITED }
  else p1

/-- The data the provider hands to the vendor integration in
`EmergentProvider.generate_content` (lines 88-103): the `LlmChat`
constructor arguments, `.with_model`, `.with_max_tokens`, and the
`UserMessage`.  `file_contents` records any attachment passed along with
the message; the source constructs `UserMessage(text=prompt)` with no
file argument, so the field is always `none` there. -/
structure VendorCall where
  api_key : Option String
  provider_key : String
  model : String
  system_message : String
  max_tokens : Nat
  text : String
  file_contents : Option String
deriving DecidableEq, Repr

/-- The `system_message` string of line 96. -/
def system_message_text : String :=
  "You are a helpful AI assistant specialized in analyzing German official letters. Provide clear, structured responses in the requested language."

/-- The vendor call built by `EmergentProvider.generate_content` from a
prompt (lines 93-100).  Note that `image_path` does not occur in it. -/
def EmergentProvider.vendor_call (p : EmergentProvider) (prompt : String) : VendorCall :=
  { api_key := p.api_key
    provider_key := p.provider_key
    model := p.model
    system_message := system_message_text
    max_tokens := 4000
    text := prompt
    file_contents := none }

/-- `EmergentProvider.generate_content` (lines 83-111).  The guard of
line 85 raises outside the `try`; inside it, a falsy response raises
`"Empty response from AI service"`, and every exception is re-raised as
`f"{self.name} API error: {str(e)}"`.  The parameter `image_path` is
accepted (line 83) but never used in the body. -/
def EmergentProvider.generate_content (avail : Bool)
    (oracle : VendorCall → Except String String) (p : EmergentProvider)
    (prompt : String) (image_path : Option String) : Except String String :=
  if !p.can_make_request || !avail then
    .error ("Provider " ++ p.name ++ " is not available")
  else
    match oracle (p.vendor_call prompt) with
    | .ok response =>
        if response.isEmpty then
          .error (p.name ++ " API error: Empty response from AI service")
        else .ok response
    | .error e => .error (p.name ++ " API error: " ++ e)

/-- `LLMManager._generate_demo_response` (lines 212-248): the fixed
demo/placeholder text (the f-string interpolates nothing). -/
def LLMManager.generate_demo_response (prompt : String) : String :=
  "\nDEMO ANALYSIS (No AI providers configured)\n\nThis is a demonstration response for the German Letter AI Assistant.\n\nBased on your request to analyze a German official letter, here's what a real AI analysis would provide:\n\nðŸ“‹ **Document Summary:**\nThe uploaded document appears to be an official German letter requiring attention.\n\nðŸ‘¤ **Sender Information:**\n[AI would identify the sender from the document]\n\nðŸ“„ **Document Type:**\n[AI would classify the type of official letter]\n\nðŸ“ **Main Content:**\n[AI would extract and summarize the main content in your requested language]\n\nâš ï¸ **Required Actions:**\n[AI would list specific actions you need to take]\n\nâ° **Important Deadlines:**\n[AI would identify any time-sensitive requirements]\n\nðŸ”¥ **Urgency Level:**\nMEDIUM (This is a demo response)\n\nðŸ’¡ **To enable full AI analysis:**\n1. Add your AI API keys to the .env file\n2. Supported providers: OpenAI, Anthropic Claude, Google Gemini\n3. The system will automatically use the best available provider\n\n**Current Status:** Demo Mode - Please configure AI providers for real analysis.\n"

/-- The `providers_config` table of `LLMManager.load_providers`
(lines 129-144): rows of (name, provider_key, model, env credential key),
in declared order. -/
def providers_config : List (String × String × String × String) :=
  [ ("OpenAI GPT-4o", "openai", "gpt-4o", "OPENAI_API_KEY"),
    ("OpenAI GPT-4o-mini", "openai", "gpt-4o-mini", "OPENAI_API_KEY"),
    ("OpenAI O1", "openai", "o1", "OPENAI_API_KEY"),
    ("OpenAI O1-mini", "openai", "o1-mini", "OPENAI_API_KEY"),
    ("Claude Sonnet 3.5", "anthropic", "claude-3-5-sonnet-20241022", "ANTHROPIC_API_KEY"),
    ("Claude Haiku 3.5", "anthropic", "claude-3-5-haiku-20241022", "ANTHROPIC_API_KEY"),
    ("Gemini 2.0 Flash", "gemini", "gemini-2.0-flash", "GEMINI_API_KEY"),
    ("Gemini 1.5 Flash", "gemini", "gemini-1.5-flash", "GEMINI_API_KEY"),
    ("Gemini 1.5 Pro", "gemini", "gemini-1.5-pro", "GEMINI_API_KEY") ]

/-- The `system_keys` dict of lines 147-151 followed by `.get(env_key)`
(line 154): the three known environment names map to `os.environ.get` of
themselves, any other key to `None`. -/
def system_keys_get (env : String → Option String) (env_key : String) : Option String :=
  if env_key = "OPENAI_API_KEY" then env "OPENAI_API_KEY"
  else if env_key = "ANTHROPIC_API_KEY" then env "ANTHROPIC_API_KEY"
  else if env_key = "GEMINI_API_KEY" then env "GEMINI_API_KEY"
  else none

/-- `LLMManager.load_providers` (lines 120-168).  `avail` is
`EMERGENT_AVAILABLE` (line 124 returns an empty list when it is false);
the loop of lines 153-161 appends a provider for each config row whose
credential is truthy (`if api_key:`); the `try/except` around the
constructor is dropped because the embedded constructor is total; the
final `if not self.providers` block (lines 164-168) only logs. -/
def LLMManager.load_providers (avail : Bool) (env : String → Option String) :
    List EmergentProvider :=
  if !avail then []
  else
    providers_config.foldl
      (fun acc row =>
        let api_key := system_keys_get env row.2.2.2
        if truthy_opt api_key then
          acc ++ [EmergentProvider.init avail env row.1 row.2.1 row.2.2.1 api_key]
        else acc)
      []

/-- One value of the dict built by `LLMManager.get_provider_status`
(lines 174-182). -/
structure StatusEntry where
  status : String
  request_count : Nat
  error_count : Nat
  last_error : Option String
  can_make_request : Bool
  provider_key : String
  model : String
deriving DecidableEq, Repr

/-- `LLMManager.get_provider_status` (lines 170-183) in state-passing
style: the loop reads each provider's fields (and calls
`can_make_request`, itself a pure read) and writes nothing, so the
returned manager state re-emits each provider unchanged.  The Python
dict keyed by `provider.name` is the association list in loop order. -/
def LLMManager.get_provider_status :
    List EmergentProvider → List (String × StatusEntry) × List EmergentProvider
  | [] => ([], [])
  | p :: rest =>
      let entry : StatusEntry :=
        { status := p.status.value
          request_count := p.request_count
          error_count := p.error_count
          last_error := p.last_error
          can_make_request := p.can_make_request
          provider_key := p.provider_key
          model := p.model }
      let r := LLMManager.get_provider_status rest
      ((p.name, entry) :: r.1, p :: r.2)

/-- The provider loop of `LLMManager.generate_content` (lines 193-206):
walk the list in order; skip a provider whose `can_make_request` is
false; otherwise `record_request`, attempt, and on success
`record_success` and return `(content, provider.name)`, on failure
`record_error(str(e))` and continue.  Returns the first success (if
any) and the updated provider list. -/
def LLMManager.try_providers (avail : Bool) (oracle : VendorCall → Except String String)
    (now : Nat) (prompt : String) (image_path : Option String) :
    List EmergentProvider → Option (String × String) × List EmergentProvider
  | [] => (none, [])
  | p :: rest =>
      if !p.can_make_request then
        let r := LLMManager.try_providers avail oracle now prompt image_path rest
        (r.1, p :: r.2)
      else
        let p1 := p.record_request now
        match p1.generate_content avail oracle prompt image_path with
        | .ok content => (some (content, p1.name), p1.record_success :: rest)
        | .error e =>
            let r := LLMManager.try_providers avail oracle now prompt image_path rest
            (r.1, p1.record_error e :: r.2)

/-- `LLMManager.generate_content` (lines 185-210): with no providers,
return the demo response labeled `"Demo Provider"` (lines 187-190);
otherwise walk the providers and, if none succeeds, return the demo
response labeled `"Demo Provider (All providers failed)"` (lines
208-210).  The pair is the Python return value `(content, name)`; the
list is the updated manager state. -/
def LLMManager.generate_content (avail : Bool) (oracle : VendorCall → Except String String)
    (now : Nat) (prompt : String) (image_path : Option String)
    (providers : List EmergentProvider) : (String × String) × List EmergentProvider :=
  if providers.isEmpty then
    ((LLMManager.generate_demo_response prompt, "Demo Provider"), providers)
  else
    match LLMManager.try_providers avail oracle now prompt image_path providers with
    | (some r, ps) => (r, ps)
    | (none, ps) =>
        ((LLMManager.generate_demo_response prompt, "Demo Provider (All providers failed)"), ps)

/-- Specification helper (not itself source code): the per-provider
effect of one orchestrator pass on a provider that does not end the
walk — an ineligible provider is untouched, an attempted provider is
`record_request` then `record_success` or `record_error` according to
its attempt's outcome. -/
def LLMManager.process_provider (avail : Bool) (oracle : VendorCall → Except String String)
    (now : Nat) (prompt : String) (image_path : Option String)
    (p : EmergentProvider) : EmergentProvider :=
  if !p.can_make_request then p
  else
    let p1 := p.record_request now
    match p1.generate_content avail oracle prompt image_path with
    | .ok _ => p1.record_success
    | .error e => p1.record_error e

/-- The arguments of one `LLMManager.generate_content` call, used to
state properties of sequences of calls against the shared provider
list. -/
structure GenCall where
  oracle : VendorCall → Except String String
  now : Nat
  prompt : String
  image_path : Option String

/-- The manager state after a sequence of `generate_content` calls. -/
def LLMManager.run_calls (avail : Bool) (calls : List GenCall)
    (ps : List EmergentProvider) : List EmergentProvider :=
  calls.foldl
    (fun s c => (LLMManager.generate_content avail c.oracle c.now c.prompt c.image_path s).2)
    ps

/-! Concrete fixtures used by the closed witness and counterexample
theorems below: a credential environment, three providers built by the
translated constructor, a provider stuck in `RATE_LIMITED`, and two
concrete vendor oracles. -/

/-- A credential environment exposing only `OPENAI_API_KEY`. -/
def env_demo : String → Option String := fun k =>
  if k = "OPENAI_API_KEY" then some "sk-demo" else none

/-- A fresh `ACTIVE` OpenAI provider (constructed as on line 157). -/
def provA : EmergentProvider :=
  EmergentProvider.init true env_demo "OpenAI GPT-4o" "openai" "gpt-4o" (some "kA")

/-- A fresh `ACTIVE` Anthropic provider. -/
def provB : EmergentProvider :=
  EmergentProvider.init true env_demo "Claude Sonnet 3.5" "anthropic"
    "claude-3-5-sonnet-20241022" (some "kB")

/-- A fresh `ACTIVE` Gemini provider. -/
def provC : EmergentProvider :=
  EmergentProvider.init true env_demo "Gemini 2.0 Flash" "gemini" "gemini-2.0-flash" (some "kC")

/-- A provider that was rate limited long ago: status `RATE_LIMITED`
(as set by `record_error` on a rate-limit message), a stored key, and a
last request at clock value 0 — so at any later clock value the 60s
cooldown of the specification has elapsed. -/
def pRL : EmergentProvider :=
  { name := "OpenAI GPT-4o"
    provider_key := "openai"
    model := "gpt-4o"
    api_key := some "kA"
    status := .RATE_LIMITED
    last_request_time := some 0
    request_count := 5
    error_count := 1
    last_error := some "Error code: 429 - rate limit exceeded" }

/-- A vendor oracle on which OpenAI calls fail and all others answer. -/
def oracle_demo : VendorCall → Except String String := fun c =>
  if c.provider_key = "openai" then .error "boom" else .ok "B-text"

/-- A vendor oracle that echoes the message text it was sent. -/
def oracle_echo : VendorCall → Except String String := fun c =>
  .ok ("echo:" ++ c.text)

/-- The relation between a provider before and after orchestrator
activity that expresses claim C3: any provider whose status is not
`ACTIVE` is left exactly as it was. -/
def frozen_rel (p q : EmergentProvider) : Prop :=
  p.status ≠ ProviderStatus.ACTIVE → q = p

/-! Shared helper lemmas about the embedded operations. -/

/-- `record_success` is a no-op unless the status is `ERROR`. -/
lemma record_success_of_ne_error (p : EmergentProvider)
    (h : p.status ≠ ProviderStatus.ERROR) : p.record_success = p := by
  simp [EmergentProvider.record_success, h]

/-- A provider whose status is not `ACTIVE` fails the eligibility check. -/
lemma can_make_request_false_of_ne_active (p : EmergentProvider)
    (h : p.status ≠ ProviderStatus.ACTIVE) : p.can_make_request = false := by
  have hb : (p.status == ProviderStatus.ACTIVE) = false := beq_eq_false_iff_ne.mpr h
  simp [EmergentProvider.can_make_request, hb]

/-- Unfolding `try_providers` at an ineligible head. -/
lemma try_providers_cons_skip (avail : Bool) (oracle : VendorCall → Except String String)
    (now : Nat) (prompt : String) (image_path : Option String)
    (p : EmergentProvider) (rest : List EmergentProvider)
    (h : p.can_make_request = false) :
    LLMManager.try_providers avail oracle now prompt image_path (p :: rest) =
      ((LLMManager.try_providers avail oracle now prompt image_path rest).1,
       p :: (LLMManager.try_providers avail oracle now prompt image_path rest).2) := by
  simp [LLMManager.try_providers, h]

/-- Unfolding `try_providers` at an eligible head whose attempt succeeds. -/
lemma try_providers_cons_ok (avail : Bool) (oracle : VendorCall → Except String String)
    (now : Nat) (prompt : String) (image_path : Option String)
    (p : EmergentProvider) (rest : List EmergentProvider) (t : String)
    (h : p.can_make_request = true)
    (hok : (p.record_request now).generate_content avail oracle prompt image_path = .ok t) :
    LLMManager.try_providers avail oracle now prompt image_path (p :: rest) =
      (some (t, p.name), (p.record_request now).record_success :: rest) := by
  have hok2 := hok
  simp only [EmergentProvider.record_request] at hok2
  simp [LLMManager.try_providers, h, EmergentProvider.record_request, hok2]

/-- Unfolding `try_providers` at an eligible head whose attempt fails. -/
lemma try_providers_cons_err (avail : Bool) (oracle : VendorCall → Except String String)
    (now : Nat) (prompt : String) (image_path : Option String)
    (p : EmergentProvider) (rest : List EmergentProvider) (e : String)
    (h : p.can_make_request = true)
    (herr : (p.record_request now).generate_content avail oracle prompt image_path = .error e) :
    LLMManager.try_providers avail oracle now prompt image_path (p :: rest) =
      ((LLMManager.try_providers avail oracle now prompt image_path rest).1,
       (p.record_request now).record_error e ::
         (LLMManager.try_providers avail oracle now prompt image_path rest).2) := by
  have herr2 := herr
  simp only [EmergentProvider.record_request] at herr2
  simp [LLMManager.try_providers, h, EmergentProvider.record_request, herr2]

/-- C1 counterexample: the claim says a `RATE_LIMITED` provider's
eligibility check "returns true again" once the cooldown has elapsed.
`can_make_request` reads no clock at all, so its value is the same at
every time: for the concrete provider `pRL` — rate limited, key present,
last request at clock 0, hence with any cooldown long elapsed at any
later clock — the eligibility check is still `false`.  There is no
cooldown-based recovery in the code. -/
theorem rate_limited_cooldown_recovery_cex :
    pRL.status = ProviderStatus.RATE_LIMITED ∧ pRL.api_key.isSome = true ∧
      pRL.last_request_time = some 0 ∧ pRL.can_make_request = false := by
  decide

/-- C1 (amended): a `RATE_LIMITED` provider is blocked unconditionally:
`can_make_request` is true only for an `ACTIVE` provider with a stored
key, reads no clock, and therefore never returns true for a rate-limited
provider, no matter how much time has passed since its last request. -/
theorem rate_limited_blocked_unconditionally (p : EmergentProvider)
    (h : p.status = ProviderStatus.RATE_LIMITED) : p.can_make_request = false := by
  apply can_make_request_false_of_ne_active
  rw [h]
  exact fun hc => ProviderStatus.noConfusion hc

/-- C1 witness: the amended theorem applied to the concrete rate-limited
provider `pRL`. -/
theorem rate_limited_blocked_unconditionally_witness :
    pRL.status = ProviderStatus.RATE_LIMITED ∧ pRL.can_make_request = false :=
  ⟨by decide, rate_limited_blocked_unconditionally pRL (by decide)⟩

/-- C2 counterexample: the claim says a success between errors prevents
them from counting as consecutive.  On the fresh provider `provA`, the
outcome sequence error, error, success, error — which never contains 3
consecutive errors — still ends with status `ERROR`: `record_success`
leaves the counter at 2 because the status is not `ERROR` at that point,
and the third (non-consecutive) error reaches the threshold. -/
theorem nonconsecutive_errors_reach_error_cex :
    (((provA.record_error "timeout-1").record_error "timeout-2").record_success).error_count = 2 ∧
    ((((provA.record_error "timeout-1").record_error "timeout-2").record_success).record_error
        "timeout-3").status = ProviderStatus.ERROR := by
  decide

/-- C2 (amended): status `ERROR` is entered exactly when the cumulative
error count (not the consecutive count) reaches 3 — for any message
content, including rate-limit indicators, since the threshold branch
takes priority; a single recorded success clears `ERROR` and resets the
counter, but a success received while the status is not `ERROR` is a
complete no-op, so it does not prevent earlier errors from counting. -/
theorem cumulative_error_threshold :
    (∀ (p : EmergentProvider) (msg : String), p.status ≠ ProviderStatus.ERROR →
        ((p.record_error msg).status = ProviderStatus.ERROR ↔ 3 ≤ p.error_count + 1)) ∧
    (∀ p : EmergentProvider, p.status = ProviderStatus.ERROR →
        p.record_success =
          { p with status := .ACTIVE, error_count := 0, last_error := none }) ∧
    (∀ p : EmergentProvider, p.status ≠ ProviderStatus.ERROR → p.record_success = p) := by
  refine ⟨fun p msg h => ?_, fun p h => ?_, fun p h => record_success_of_ne_error p h⟩
  · unfold EmergentProvider.record_error
    by_cases h3 : 3 ≤ p.error_count + 1
    · simp [h3]
    · by_cases hrl : str_contains_sub (lower_str msg) "rate limit" = true <;>
        simp [h3, hrl, h]
  · simp [EmergentProvider.record_success, h]

/-- C2 witness: the amended theorem applied at concrete inputs — the
threshold iff at a provider holding 2 errors, and the no-op success on a
fresh provider. -/
theorem cumulative_error_threshold_witness :
    ((((provA.record_error "e1").record_error "e2").record_error "e3").status =
        ProviderStatus.ERROR ↔
      3 ≤ ((provA.record_error "e1").record_error "e2").error_count + 1) ∧
    provA.record_success = provA :=
  ⟨cumulative_error_threshold.1 ((provA.record_error "e1").record_error "e2") "e3" (by decide),
   cumulative_error_threshold.2.2 provA (by decide)⟩

/-- C5: with an empty provider list, `generate_content` returns the demo
placeholder labeled `"Demo Provider"`, as a normal return value (the
function is total, so no fault is raised), and — since the statement
holds for every vendor oracle and the oracle occurs nowhere in the
result — without attempting any vendor call. -/
theorem generate_empty_registry_placeholder (avail : Bool)
    (oracle : VendorCall → Except String String) (now : Nat) (prompt : String)
    (image_path : Option String) :
    LLMManager.generate_content avail oracle now prompt image_path [] =
      ((LLMManager.generate_demo_response prompt, "Demo Provider"), []) := rfl

/-- C8: `get_provider_status` only reads provider fields, so the manager
state it hands back is the input state unchanged, and a second snapshot
taken on that state returns the identical mapping.  The operation takes
no vendor oracle, so it can trigger no vendor call. -/
theorem status_snapshot_idempotent (ps : List EmergentProvider) :
    (LLMManager.get_provider_status ps).2 = ps ∧
    (LLMManager.get_provider_status (LLMManager.get_provider_status ps).2).1 =
      (LLMManager.get_provider_status ps).1 := by
  have h : ∀ l : List EmergentProvider, (LLMManager.get_provider_status l).2 = l := by
    intro l
    induction l with
    | nil => rfl
    | cons p rest ih => simp [LLMManager.get_provider_status, ih]
  exact ⟨h ps, by rw [h ps]⟩

/-- A fold that conditionally appends one image per element is the
image of the filtered list. -/
lemma foldl_append_filter {α β : Type} (pred : α → Bool) (g : α → β) :
    ∀ (l : List α) (acc : List β),
      l.foldl (fun a r => if pred r then a ++ [g r] else a) acc =
        acc ++ (l.filter pred).map g := by
  intro l
  induction l with
  | nil => intro acc; simp
  | cons r tl ih =>
      intro acc
      by_cases h : pred r <;> simp [List.foldl_cons, h, ih]

/-- C9: for every credential environment, the registry build (with the
integration library available) is exactly the order-preserving filter of
the declared configuration table keeping the rows whose credential key
resolves to a truthy (non-empty, non-absent) secret, each row built by
the translated constructor. -/
theorem load_providers_filter_config (env : String → Option String) :
    LLMManager.load_providers true env =
      (providers_config.filter
          (fun row => truthy_opt (system_keys_get env row.2.2.2))).map
        (fun row => EmergentProvider.init true env row.1 row.2.1 row.2.2.1
          (system_keys_get env row.2.2.2)) := by
  unfold LLMManager.load_providers
  simp only [Bool.not_true, Bool.false_eq_true, if_false]
  rw [foldl_append_filter (fun row => truthy_opt (system_keys_get env row.2.2.2))
      (fun row => EmergentProvider.init true env row.1 row.2.1 row.2.2.1
        (system_keys_get env row.2.2.2)) providers_config []]
  simp

/-- A provider attempt does not depend on the attachment argument: the
body of `EmergentProvider.generate_content` never reads `image_path`. -/
lemma provider_generate_image_independent (avail : Bool)
    (oracle : VendorCall → Except String String) (p : EmergentProvider)
    (prompt : String) (img1 img2 : Option String) :
    p.generate_content avail oracle prompt img1 = p.generate_content avail oracle prompt img2 := rfl

/-- `try_providers` does not depend on the attachment argument. -/
lemma try_providers_image_independent (avail : Bool)
    (oracle : VendorCall → Except String String) (now : Nat) (prompt : String)
    (img1 img2 : Option String) :
    ∀ ps : List EmergentProvider,
      LLMManager.try_providers avail oracle now prompt img1 ps =
        LLMManager.try_providers avail oracle now prompt img2 ps := by
  intro ps
  induction ps with
  | nil => rfl
  | cons p rest ih =>
      unfold LLMManager.try_providers
      rw [ih]
      exact rfl

/-- C10: two-run noninterference in the attachment input.  The
`image_path` argument is accepted by both the provider attempt and the
orchestrator but never enters the vendor call (`vendor_call` carries
`file_contents = none` built from the prompt alone), so any two runs
that differ only in the attachment produce identical results and
identical provider states. -/
theorem attachment_noninterference (avail : Bool)
    (oracle : VendorCall → Except String String) (now : Nat) (prompt : String)
    (img1 img2 : Option String) (p : EmergentProvider) (ps : List EmergentProvider) :
    p.generate_content avail oracle prompt img1 = p.generate_content avail oracle prompt img2 ∧
    LLMManager.generate_content avail oracle now prompt img1 ps =
      LLMManager.generate_content avail oracle now prompt img2 ps := by
  refine ⟨provider_generate_image_independent avail oracle p prompt img1 img2, ?_⟩
  unfold LLMManager.generate_content
  rw [try_providers_image_independent avail oracle now prompt img1 img2 ps]

/-- An eligible provider is `ACTIVE`. -/
lemma status_active_of_can_make_request (p : EmergentProvider)
    (h : p.can_make_request = true) : p.status = ProviderStatus.ACTIVE := by
  have h2 := h
  simp [EmergentProvider.can_make_request] at h2
  exact h2.1

/-- `frozen_rel` holds of every provider and itself. -/
lemma forall₂_frozen_refl (l : List EmergentProvider) : List.Forall₂ frozen_rel l l :=
  List.forall₂_same.mpr (fun _ _ _ => rfl)

/-- `frozen_rel` composes along successive orchestrator passes. -/
lemma forall₂_frozen_trans {a b c : List EmergentProvider}
    (h1 : List.Forall₂ frozen_rel a b) (h2 : List.Forall₂ frozen_rel b c) :
    List.Forall₂ frozen_rel a c := by
  induction h1 generalizing c with
  | nil => cases h2; exact List.Forall₂.nil
  | @cons p q tl1 tl2 hpq _ ih =>
      cases h2 with
      | @cons _ r _ tl3 hqr h2tl =>
          refine List.Forall₂.cons (fun hna => ?_) (ih h2tl)
          have hqp := hpq hna
          have hq : q.status ≠ ProviderStatus.ACTIVE := by rw [hqp]; exact hna
          rw [hqr hq, hqp]

/-- One provider walk leaves every non-`ACTIVE` provider untouched. -/
lemma try_providers_frozen (avail : Bool) (oracle : VendorCall → Except String String)
    (now : Nat) (prompt : String) (image_path : Option String)
    (ps : List EmergentProvider) :
    List.Forall₂ frozen_rel ps
      (LLMManager.try_providers avail oracle now prompt image_path ps).2 := by
  induction ps with
  | nil => exact List.Forall₂.nil
  | cons p rest ih =>
      by_cases hc : p.can_make_request = true
      · have hact := status_active_of_can_make_request p hc
        cases hres : (p.record_request now).generate_content avail oracle prompt image_path with
        | ok t =>
            rw [try_providers_cons_ok avail oracle now prompt image_path p rest t hc hres]
            exact List.Forall₂.cons (fun hna => absurd hact hna) (forall₂_frozen_refl rest)
        | error e =>
            rw [try_providers_cons_err avail oracle now prompt image_path p rest e hc hres]
            exact List.Forall₂.cons (fun hna => absurd hact hna) ih
      · rw [try_providers_cons_skip avail oracle now prompt image_path p rest
            (Bool.not_eq_true _ ▸ Bool.of_not_eq_true hc)]
        exact List.Forall₂.cons (fun _ => rfl) ih

/-- The provider-list component of one `generate_content` call. -/
lemma generate_content_snd (avail : Bool) (oracle : VendorCall → Except String String)
    (now : Nat) (prompt : String) (image_path : Option String)
    (ps : List EmergentProvider) :
    (LLMManager.generate_content avail oracle now prompt image_path ps).2 =
      if ps.isEmpty then ps
      else (LLMManager.try_providers avail oracle now prompt image_path ps).2 := by
  unfold LLMManager.generate_content
  by_cases h : ps.isEmpty
  · simp [h]
  · simp only [h, if_false, Bool.false_eq_true]
    rcases htp : LLMManager.try_providers avail oracle now prompt image_path ps with ⟨r, l⟩
    cases r <;> simp [htp]

/-- One `generate_content` call leaves every non-`ACTIVE` provider
untouched. -/
lemma generate_content_frozen (avail : Bool) (oracle : VendorCall → Except String String)
    (now : Nat) (prompt : String) (image_path : Option String)
    (ps : List EmergentProvider) :
    List.Forall₂ frozen_rel ps
      (LLMManager.generate_content avail oracle now prompt image_path ps).2 := by
  rw [generate_content_snd]
  by_cases h : ps.isEmpty
  · rw [if_pos h]
    exact forall₂_frozen_refl ps
  · rw [if_neg h]
    exact try_providers_frozen avail oracle now prompt image_path ps

/-- C3 (implicit): in every state reachable through
`LLMManager.generate_content` — any sequence of calls, each with its own
oracle, clock, prompt and attachment — a provider whose status is not
`ACTIVE` is left exactly as it was: it is never attempted again (its
fields, `request_count` included, are unchanged) and its status never
returns to `ACTIVE`.  The second conjunct shows why the restoring branch
of `record_success` is unreachable through the orchestrator: the
orchestrator applies `record_success` only to a provider it just found
eligible (hence `ACTIVE`), and on an `ACTIVE` provider `record_success`
is the identity. -/
theorem non_active_provider_frozen (avail : Bool) (calls : List GenCall)
    (ps : List EmergentProvider) :
    List.Forall₂ frozen_rel ps (LLMManager.run_calls avail calls ps) ∧
    ∀ p : EmergentProvider, p.status = ProviderStatus.ACTIVE → p.record_success = p := by
  constructor
  · induction calls generalizing ps with
    | nil => exact forall₂_frozen_refl ps
    | cons c tl ih =>
        have h1 := generate_content_frozen avail c.oracle c.now c.prompt c.image_path ps
        have h2 := ih ((LLMManager.generate_content avail c.oracle c.now c.prompt
            c.image_path ps).2)
        exact forall₂_frozen_trans h1 h2
  · intro p h
    exact record_success_of_ne_error p (by rw [h]; exact fun hc => ProviderStatus.noConfusion hc)

/-- C3 witness: the theorem applied to the concrete rate-limited
provider `pRL` under one concrete call, and to the concrete `ACTIVE`
provider `provC`. -/
theorem non_active_provider_frozen_witness :
    List.Forall₂ frozen_rel [pRL]
      (LLMManager.run_calls true [⟨oracle_echo, 7, "analyze", none⟩] [pRL]) ∧
    provC.record_success = provC :=
  ⟨(non_active_provider_frozen true [⟨oracle_echo, 7, "analyze", none⟩] [pRL]).1,
   (non_active_provider_frozen true [] []).2 provC (by decide)⟩

/-- `try_providers` on a list whose prefix consists of ineligible or
failing providers followed by an eligible provider whose attempt
succeeds: the walk returns that provider's text and name, maps the
prefix through its per-provider effect, and leaves the suffix exactly
as given. -/
lemma try_providers_first_success (avail : Bool)
    (oracle : VendorCall → Except String String) (now : Nat) (prompt : String)
    (image_path : Option String) (t : String) :
    ∀ (pre : List EmergentProvider) (b : EmergentProvider) (post : List EmergentProvider),
      (∀ p ∈ pre, p.can_make_request = true →
          ∃ e, (p.record_request now).generate_content avail oracle prompt image_path =
            .error e) →
      b.can_make_request = true →
      (b.record_request now).generate_content avail oracle prompt image_path = .ok t →
      LLMManager.try_providers avail oracle now prompt image_path (pre ++ b :: post) =
        (some (t, b.name),
         pre.map (LLMManager.process_provider avail oracle now prompt image_path) ++
           (b.record_request now).record_success :: post) := by
  intro pre
  induction pre with
  | nil =>
      intro b post _ hb hbt
      simpa using try_providers_cons_ok avail oracle now prompt image_path b post t hb hbt
  | cons p tl ih =>
      intro b post hpre hb hbt
      have htl : ∀ q ∈ tl, q.can_make_request = true →
          ∃ e, (q.record_request now).generate_content avail oracle prompt image_path =
            .error e :=
        fun q hq => hpre q (List.mem_cons_of_mem p hq)
      by_cases hc : p.can_make_request = true
      · obtain ⟨e, he⟩ := hpre p (List.mem_cons_self p tl) hc
        rw [List.cons_append,
            try_providers_cons_err avail oracle now prompt image_path p (tl ++ b :: post) e hc he,
            ih b post htl hb hbt]
        simp [LLMManager.process_provider, hc, he]
      · have hc2 : p.can_make_request = false := Bool.of_not_eq_true hc
        rw [List.cons_append,
            try_providers_cons_skip avail oracle now prompt image_path p (tl ++ b :: post) hc2,
            ih b post htl hb hbt]
        simp [LLMManager.process_provider, hc2]

/-- C4: `generate_content` walks the providers in strict registry order;
for the first eligible provider whose attempt succeeds it returns that
provider's text paired with that provider's name immediately, and every
later provider is returned exactly as given — never attempted. -/
theorem generate_first_success (avail : Bool)
    (oracle : VendorCall → Except String String) (now : Nat) (prompt : String)
    (image_path : Option String) (t : String)
    (pre : List EmergentProvider) (b : EmergentProvider) (post : List EmergentProvider)
    (hpre : ∀ p ∈ pre, p.can_make_request = true →
        ∃ e, (p.record_request now).generate_content avail oracle prompt image_path = .error e)
    (hb : b.can_make_request = true)
    (hbt : (b.record_request now).generate_content avail oracle prompt image_path = .ok t) :
    LLMManager.generate_content avail oracle now prompt image_path (pre ++ b :: post) =
      ((t, b.name),
       pre.map (LLMManager.process_provider avail oracle now prompt image_path) ++
         (b.record_request now).record_success :: post) := by
  have htry := try_providers_first_success avail oracle now prompt image_path t pre b post
    hpre hb hbt
  have hemp : (pre ++ b :: post).isEmpty = false := by
    cases pre <;> rfl
  simp [LLMManager.generate_content, hemp, htry]

/-- C4 witness: concrete providers [provA (fails), provB (succeeds),
provC (unused)] under the concrete oracle on which OpenAI calls fail:
the result is provB's text and name, and provC is returned exactly as
given — never attempted. -/
theorem generate_first_success_witness :
    provA.can_make_request = true ∧ provB.can_make_request = true ∧
    LLMManager.generate_content true oracle_demo 3 "analyze" none [provA, provB, provC] =
      (("B-text", provB.name),
       [provA].map (LLMManager.process_provider true oracle_demo 3 "analyze" none) ++
         (provB.record_request 3).record_success :: [provC]) :=
  ⟨by decide, by decide,
   generate_first_success true oracle_demo 3 "analyze" none "B-text" [provA] provB [provC]
     (by
       intro p hp hc
       rcases List.mem_singleton.mp hp with rfl
       exact ⟨"OpenAI GPT-4o API error: boom", rfl⟩)
     (by decide) rfl⟩

/-- `try_providers` on a list where every eligible provider's attempt
fails: the walk produces no result and maps every provider through its
per-provider effect (ineligible ones untouched, attempted ones with the
failure recorded). -/
lemma try_providers_all_fail (avail : Bool) (oracle : VendorCall → Except String String)
    (now : Nat) (prompt : String) (image_path : Option String) :
    ∀ ps : List EmergentProvider,
      (∀ p ∈ ps, p.can_make_request = true →
          ∃ e, (p.record_request now).generate_content avail oracle prompt image_path =
            .error e) →
      LLMManager.try_providers avail oracle now prompt image_path ps =
        (none, ps.map (LLMManager.process_provider avail oracle now prompt image_path)) := by
  intro ps
  induction ps with
  | nil => intro _; rfl
  | cons p tl ih =>
      intro hall
      have htl : ∀ q ∈ tl, q.can_make_request = true →
          ∃ e, (q.record_request now).generate_content avail oracle prompt image_path =
            .error e :=
        fun q hq => hall q (List.mem_cons_of_mem p hq)
      by_cases hc : p.can_make_request = true
      · obtain ⟨e, he⟩ := hall p (List.mem_cons_self p tl) hc
        rw [try_providers_cons_err avail oracle now prompt image_path p tl e hc he, ih htl]
        simp [LLMManager.process_provider, hc, he]
      · have hc2 : p.can_make_request = false := Bool.of_not_eq_true hc
        rw [try_providers_cons_skip avail oracle now prompt image_path p tl hc2, ih htl]
        simp [LLMManager.process_provider, hc2]

/-- C6: when every eligible provider's attempt fails, `generate_content`
absorbs each failure — each one is folded into that provider's health
state by `record_error` (the `process_provider` image of the list) and
never propagates: the call returns normally with the demo placeholder
labeled `"Demo Provider (All providers failed)"`, a label distinct from
the success path, which returns the attempted provider's own name. -/
theorem generate_all_fail_placeholder (avail : Bool)
    (oracle : VendorCall → Except String String) (now : Nat) (prompt : String)
    (image_path : Option String) (ps : List EmergentProvider)
    (hne : ps ≠ [])
    (hall : ∀ p ∈ ps, p.can_make_request = true →
        ∃ e, (p.record_request now).generate_content avail oracle prompt image_path = .error e) :
    LLMManager.generate_content avail oracle now prompt image_path ps =
      ((LLMManager.generate_demo_response prompt, "Demo Provider (All providers failed)"),
       ps.map (LLMManager.process_provider avail oracle now prompt image_path)) := by
  have htry := try_providers_all_fail avail oracle now prompt image_path ps hall
  have hemp : ps.isEmpty = false := by
    cases ps with
    | nil => exact absurd rfl hne
    | cons a l => rfl
  simp [LLMManager.generate_content, hemp, htry]

/-- C6 witness: the theorem applied to the concrete provider list
[provA] under the concrete oracle on which OpenAI calls fail. -/
theorem generate_all_fail_placeholder_witness :
    ([provA] ≠ ([] : List EmergentProvider)) ∧
    LLMManager.generate_content true oracle_demo 2 "analyze" none [provA] =
      ((LLMManager.generate_demo_response "analyze", "Demo Provider (All providers failed)"),
       [provA].map (LLMManager.process_provider true oracle_demo 2 "analyze" none)) :=
  ⟨by decide,
   generate_all_fail_placeholder true oracle_demo 2 "analyze" none [provA] (by decide)
     (by
       intro p hp hc
       rcases List.mem_singleton.mp hp with rfl
       exact ⟨"OpenAI GPT-4o API error: boom", rfl⟩)⟩

/-- `record_success` never changes the request counter. -/
lemma record_success_request_count (p : EmergentProvider) :
    p.record_success.request_count = p.request_count := by
  unfold EmergentProvider.record_success
  split <;> rfl

/-- `record_error` never changes the request counter. -/
lemma record_error_request_count (e : String) (p : EmergentProvider) :
    (p.record_error e).request_count = p.request_count := by
  unfold EmergentProvider.record_error
  by_cases h3 : 3 ≤ p.error_count + 1
  · simp [h3]
  · by_cases hrl : str_contains_sub (lower_str e) "rate limit" = true <;> simp [h3, hrl]

/-- C7 counterexample: the claim says that when an attachment is
supplied and the chosen provider lacks attachment support, the
orchestrator skips to the next capable provider or degrades it to
text-only, governed by a per-provider capability flag declared at
construction.  No such flag exists: the translated `EmergentProvider`
record (field-for-field from `__init__`, lines 39-54) declares no
capability field.  Concretely, with an attachment supplied to the single
provider `provA` (which declares no attachment support), the provider is
not skipped — it is attempted (its request counter becomes 1) — the
vendor call built for it carries no attachment, and the entire call is
bit-identical to the attachment-free run: the attachment is silently
dropped, not routed by any declared capability. -/
theorem no_capability_routing_cex :
    LLMManager.generate_content true oracle_echo 0 "analyze" (some "/tmp/letter.png") [provA] =
      LLMManager.generate_content true oracle_echo 0 "analyze" none [provA] ∧
    ((LLMManager.generate_content true oracle_echo 0 "analyze" (some "/tmp/letter.png")
        [provA]).2.map EmergentProvider.request_count) = [1] ∧
    (provA.vendor_call "analyze").file_contents = none :=
  ⟨rfl, by decide, rfl⟩

/-- C7 (amended): there is no capability routing.  Every provider
unconditionally degrades to text-only generation: the vendor call it
builds carries no attachment (`file_contents = none`, the `UserMessage`
is built from the prompt alone), its attempt outcome is identical with
and without an attachment, and an eligible provider offered an
attachment is still attempted rather than skipped (its request counter
increments).  No per-provider capability flag exists to govern any of
this. -/
theorem attachment_unconditionally_ignored (avail : Bool)
    (oracle : VendorCall → Except String String) (now : Nat) (prompt : String)
    (image_path : Option String) (p : EmergentProvider)
    (h : p.can_make_request = true) :
    (p.vendor_call prompt).file_contents = none ∧
    p.generate_content avail oracle prompt image_path =
      p.generate_content avail oracle prompt none ∧
    ((LLMManager.generate_content avail oracle now prompt image_path [p]).2.map
        EmergentProvider.request_count) = [p.request_count + 1] := by
  refine ⟨rfl, rfl, ?_⟩
  cases hres : (p.record_request now).generate_content avail oracle prompt image_path with
  | ok t =>
      have htry := try_providers_cons_ok avail oracle now prompt image_path p [] t h hres
      simp [LLMManager.generate_content, htry, record_success_request_count,
        EmergentProvider.record_request]
  | error e =>
      have hres2 := hres
      simp only [EmergentProvider.record_request] at hres2
      simp [LLMManager.generate_content, LLMManager.try_providers, h, hres2,
        record_error_request_count, EmergentProvider.record_request]

/-- C7 witness: the amended theorem applied to the concrete eligible
provider `provB` with a concrete attachment path. -/
theorem attachment_unconditionally_ignored_witness :
    provB.can_make_request = true ∧
    ((provB.vendor_call "analyze").file_contents = none ∧
     provB.generate_content true oracle_echo "analyze" (some "/tmp/letter.png") =
       provB.generate_content true oracle_echo "analyze" none ∧
     ((LLMManager.generate_content true oracle_echo 5 "analyze" (some "/tmp/letter.png")
         [provB]).2.map EmergentProvider.request_count) = [provB.request_count + 1]) :=
  ⟨by decide,
   attachment_unconditionally_ignored true oracle_echo 5 "analyze" (some "/tmp/letter.png")
     provB (by decide)⟩
